import Mathlib

/-!
Shallow embedding of the react-fluxter global state manager.

The core is `createStore` (src/core/store.ts): a mutable container holding a
current state, a store name and a list of listener callbacks.  We model the
mutable container by explicit state passing on a `StoreState` record.
JavaScript exceptions thrown by the user-supplied reducer are modelled by the
reducer returning `Except Err`; listener callbacks are identified by a `Nat`
identity (JavaScript compares listeners by function reference in `indexOf`),
and a notification pass is recorded as the list of listener identities invoked,
in order.  The React hooks (src/react/hooks.ts, src/react/context.ts) are
modelled over an optional ambient store (React context with `null` default),
and the zustand-style `create` (src/zustand-style.ts) over the store it builds.
-/

namespace Fluxter

/-- JavaScript runtime values, to the extent the container inspects them:
the dispatch guard checks `typeof action.name === 'string'`, and a missing
object field reads as `undefined`. -/
inductive JVal where
  | undefined
  | null
  | bool (b : Bool)
  | num (n : Int)
  | str (s : String)
deriving DecidableEq, Repr

/-- The guard `typeof v === 'string'`. -/
def JVal.isString : JVal → Bool
  | .str _ => true
  | _ => false

/-- Read a `JVal` known to be a string (only used behind an `isString` guard). -/
def JVal.asString : JVal → String
  | .str s => s
  | _ => ""

/-- An action `{ type: string } & Record<string, any>` (src/core/types.ts).
We keep the `type` discriminator, the `name` field inspected by the rename
special case, and one generic `payload` field; absent fields are `undefined`. -/
structure Action where
  type : String
  name : JVal
  payload : JVal
deriving DecidableEq, Repr

/-- JavaScript exceptions are carried as messages. -/
abbrev Err := String

/-- A reducer `(currentState: S, action: Action) => S` which may throw. -/
def Reducer (S : Type) : Type := S → Action → Except Err S

/-- The mutable closure state of one store created by `createStore`:
`currentState`, `storeName`, and the `listeners` array (listener identities,
in registration order). -/
structure StoreState (S : Type) where
  currentState : S
  storeName : String
  listeners : List Nat
deriving DecidableEq, Repr

variable {S T : Type}

/-- The store's `getState`. -/
def getState (st : StoreState S) : S :=
  st.currentState

/-- The store's `getStoreName`. -/
def getStoreName (st : StoreState S) : String :=
  st.storeName

/-- The store's `setStoreName`: assigns the new name, then runs
`listeners.forEach(listener => listener())`.  Returns the updated store and
the notification pass (list of listener identities invoked, in order). -/
def setStoreName (st : StoreState S) (newName : String) : StoreState S × List Nat :=
  let st' : StoreState S := { st with storeName := newName }
  (st', st'.listeners)

/-- The guard of the rename special case in `dispatch`:
`action.type === '@@RENAME_STORE'` and `typeof action.name === 'string'`. -/
def wellFormedRename (a : Action) : Bool :=
  a.type == "@@RENAME_STORE" && a.name.isString

/-- The store's `dispatch`.  If the action is a well-formed rename it calls
`setStoreName` and returns; otherwise it runs the reducer, assigns the result
to `currentState` and notifies the listeners.  The result is the store after
the call, the notification pass, and the exception propagated out of
`dispatch` (if the reducer threw).  When the reducer throws, the assignment to
`currentState` never executes, so the store is returned unchanged. -/
def dispatch (r : Reducer S) (st : StoreState S) (a : Action) :
    StoreState S × List Nat × Option Err :=
  if wellFormedRename a then
    let p := setStoreName st a.name.asString
    (p.1, p.2, none)
  else
    match r st.currentState a with
    | Except.error e => (st, [], some e)
    | Except.ok s' => ({ st with currentState := s' }, st.listeners, none)

/-- The store's `subscribe`: `listeners.push(listener)`. -/
def subscribe (st : StoreState S) (l : Nat) : StoreState S :=
  { st with listeners := st.listeners ++ [l] }

/-- The unsubscribe capability returned by `subscribe(l)`:
`const index = listeners.indexOf(listener); if (index === -1) return false;
listeners.splice(index, 1); return true;`. -/
def unsubscribe (st : StoreState S) (l : Nat) : StoreState S × Bool :=
  match st.listeners.indexOf? l with
  | none => (st, false)
  | some i => ({ st with listeners := st.listeners.eraseIdx i }, true)

/-- The implicit initialization action dispatched by `createStore`. -/
def initAction : Action :=
  { type := "@@INIT", name := JVal.undefined, payload := JVal.undefined }

/-- The factory `createStore(initialState, reducer, initialName)`.  It builds
the closure state with an empty listeners array, performs exactly one implicit
`dispatch({ type: '@@INIT' })` through the normal dispatch path, and returns
the store; an exception thrown by that init dispatch propagates out of
`createStore` and no store is returned. -/
def createStore (initialState : S) (r : Reducer S) (initialName : String) :
    Except Err (StoreState S) :=
  let st0 : StoreState S :=
    { currentState := initialState, storeName := initialName, listeners := [] }
  match dispatch r st0 initAction with
  | (st, _, none) => Except.ok st
  | (_, _, some e) => Except.error e

/-- Run a sequence of dispatches, keeping the store after each (a dispatch
whose reducer throws leaves the store unchanged, as in the source). -/
def runDispatches (r : Reducer S) (st : StoreState S) (acts : List Action) :
    StoreState S :=
  acts.foldl (fun s a => (dispatch r s a).1) st

/-- The context lookup `useStoreContext` (src/react/context.ts): the ambient
React context value is `null` outside every `Provider`, and the hook throws
a configuration error in that case. -/
def useStoreContext (ctx : Option (StoreState S)) : Except Err (StoreState S) :=
  match ctx with
  | none => Except.error "useStoreContext must be used within a StoreProvider"
  | some store => Except.ok store

/-- The `useSelector` hook (src/react/hooks.ts): resolves the ambient store,
then its snapshot is `selector(store.getState())`. -/
def useSelector (ctx : Option (StoreState S)) (sel : S → T) : Except Err T :=
  (useStoreContext ctx).map (fun store => sel (getState store))

/-- The `useDispatch` hook: resolves the ambient store and returns its
`dispatch` capability. -/
def useDispatch (r : Reducer S) (ctx : Option (StoreState S)) :
    Except Err (Action → StoreState S × List Nat × Option Err) :=
  (useStoreContext ctx).map (fun store => dispatch r store)

/-- The `useStore` hook: resolves the ambient store, then its snapshot is
`store.getState()`. -/
def useStore (ctx : Option (StoreState S)) : Except Err S :=
  (useStoreContext ctx).map (fun store => getState store)

/-- The zustand-style `create(initialState, reducer, storeName)`
(src/zustand-style.ts): it creates one internal store with the very same
`createStore` and the returned hook closes over it permanently. -/
def create (initialState : S) (r : Reducer S) (storeName : String) :
    Except Err (StoreState S) :=
  createStore initialState r storeName

/-- The snapshot computed by the hook returned from `create` when invoked
with a selector: the true branch of
`selector ? selector(store.getState()) : store.getState()`. -/
def createGetSnapshotSel (store : StoreState S) (sel : S → T) : T :=
  sel (getState store)

/-- The snapshot computed by the hook returned from `create` when invoked
with zero arguments: the false branch of
`selector ? selector(store.getState()) : store.getState()`. -/
def createGetSnapshotNone (store : StoreState S) : S :=
  getState store

/-- The example counter state from the repository README. -/
structure CounterState where
  count : Int
deriving DecidableEq, Repr

/-- The example counter reducer from the repository README: `INCREMENT` and
`DECREMENT` adjust `count`, every other tag returns the state unchanged. -/
def counterReducer : Reducer CounterState := fun s a =>
  if a.type == "INCREMENT" then Except.ok { count := s.count + 1 }
  else if a.type == "DECREMENT" then Except.ok { count := s.count - 1 }
  else Except.ok s

/-- A reducer that throws on the tag `BOOM` and otherwise leaves the state
unchanged (used to exercise the fault path of `dispatch`). -/
def boomReducer : Reducer CounterState := fun s a =>
  if a.type == "BOOM" then Except.error "boom"
  else Except.ok s

/-- A reducer that throws on the implicit init action itself. -/
def initFaultReducer : Reducer CounterState := fun s a =>
  if a.type == "@@INIT" then Except.error "init failed"
  else Except.ok s

/-- The `{ type: 'INCREMENT' }` action of the README example. -/
def incrAction : Action :=
  { type := "INCREMENT", name := JVal.undefined, payload := JVal.undefined }

/-- A well-formed rename action `{ type: '@@RENAME_STORE', name: s }`. -/
def renameAction (s : String) : Action :=
  { type := "@@RENAME_STORE", name := JVal.str s, payload := JVal.undefined }

/-- A malformed rename action whose `name` field is a number, not a string. -/
def badRenameAction : Action :=
  { type := "@@RENAME_STORE", name := JVal.num 5, payload := JVal.undefined }

/-- The action on which `boomReducer` throws. -/
def boomAction : Action :=
  { type := "BOOM", name := JVal.undefined, payload := JVal.undefined }

/-- A counter store at count 0 with no listeners registered yet. -/
def counterStore0 : StoreState CounterState :=
  { currentState := { count := 0 }, storeName := "counter-store", listeners := [] }

/-- The store obtained by subscribing the same listener (identity 7) twice,
as JavaScript permits: `store.subscribe(f); store.subscribe(f)`. -/
def dupStore : StoreState CounterState :=
  subscribe (subscribe counterStore0 7) 7

/-- The README dispatch sequence: three increments, then a rename to `x`. -/
def c1Acts : List Action :=
  [incrAction, incrAction, incrAction, renameAction "x"]

/-! Helper lemmas about the embedding, shared by the claim theorems. -/

/-- JavaScript `indexOf` followed by `splice(index, 1)` removes exactly the
first occurrence of the element, i.e. agrees with `List.erase`. -/
lemma indexOf_splice_eq_erase (xs : List Nat) (l : Nat) :
    (match xs.indexOf? l with
     | none => xs
     | some i => xs.eraseIdx i) = xs.erase l := by
  induction xs with
  | nil => rfl
  | cons x xs ih =>
    rw [List.indexOf?_cons, List.erase_cons]
    by_cases h : x = l
    · simp [h]
    · have hbeq : (x == l) = false := by simp [h]
      rw [hbeq]
      simp only [Bool.false_eq_true, if_false]
      cases hfi : xs.indexOf? l with
      | none =>
        rw [hfi] at ih
        simpa [hfi] using ih
      | some i =>
        rw [hfi] at ih
        simpa [hfi, List.eraseIdx_cons_succ] using ih

/-- JavaScript `indexOf` returns `-1` exactly when the element is absent. -/
lemma indexOf_eq_none_iff (xs : List Nat) (l : Nat) :
    xs.indexOf? l = none ↔ l ∉ xs := by
  induction xs with
  | nil => simp
  | cons x xs ih =>
    rw [List.indexOf?_cons]
    by_cases h : x = l
    · simp [h]
    · have hbeq : (x == l) = false := by simp [h]
      simp [hbeq, Ne.symm h, ih]

/-- The store returned by the unsubscribe capability: the listener list loses
its first occurrence of the listener, nothing else changes. -/
lemma unsubscribe_fst (st : StoreState S) (l : Nat) :
    (unsubscribe st l).1 = { st with listeners := st.listeners.erase l } := by
  unfold unsubscribe
  cases hfi : st.listeners.indexOf? l with
  | none =>
    have : l ∉ st.listeners := (indexOf_eq_none_iff _ _).mp hfi
    simp [List.erase_of_not_mem this]
  | some i =>
    have h2 : st.listeners.eraseIdx i = st.listeners.erase l := by
      have h := indexOf_splice_eq_erase st.listeners l
      rw [hfi] at h
      exact h
    simp [h2]

/-- The unsubscribe capability returns `true` exactly when the listener is
still present in the listener list. -/
lemma unsubscribe_snd (st : StoreState S) (l : Nat) :
    (unsubscribe st l).2 = true ↔ l ∈ st.listeners := by
  unfold unsubscribe
  cases hfi : st.listeners.indexOf? l with
  | none =>
    have : l ∉ st.listeners := (indexOf_eq_none_iff _ _).mp hfi
    simp [this]
  | some i =>
    have : ¬ st.listeners.indexOf? l = none := by simp [hfi]
    have hmem : l ∈ st.listeners := by
      by_contra hn
      exact this ((indexOf_eq_none_iff _ _).mpr hn)
    simp [hmem]

/-- Dispatch of a well-formed rename: only the name changes, the listeners
are notified, nothing is thrown. -/
lemma dispatch_rename (r : Reducer S) (st : StoreState S) (a : Action)
    (h : wellFormedRename a = true) :
    dispatch r st a = ({ st with storeName := a.name.asString }, st.listeners, none) := by
  simp [dispatch, h, setStoreName]

/-- Dispatch of a non-rename action whose reducer call returns normally:
the new state is assigned and the listeners are notified. -/
lemma dispatch_ok (r : Reducer S) (st : StoreState S) (a : Action) (s' : S)
    (h : wellFormedRename a = false) (hok : r st.currentState a = Except.ok s') :
    dispatch r st a = ({ st with currentState := s' }, st.listeners, none) := by
  simp [dispatch, h, hok]

/-- Dispatch of a non-rename action whose reducer call throws: the store is
unchanged, no listener is notified, the exception propagates. -/
lemma dispatch_error (r : Reducer S) (st : StoreState S) (a : Action) (e : Err)
    (h : wellFormedRename a = false) (he : r st.currentState a = Except.error e) :
    dispatch r st a = (st, [], some e) := by
  simp [dispatch, h, he]

/-- Unfolding one step of a dispatch sequence at position `i`. -/
lemma runDispatches_take_succ (r : Reducer S) (st : StoreState S)
    (acts : List Action) (i : Nat) (hi : i < acts.length) :
    runDispatches r st (acts.take (i + 1))
      = (dispatch r (runDispatches r st (acts.take i)) (acts.get ⟨i, hi⟩)).1 := by
  unfold runDispatches
  rw [List.take_succ, List.foldl_append]
  have : acts[i]? = some (acts.get ⟨i, hi⟩) := by
    rw [List.getElem?_eq_getElem hi]
    simp
  rw [this]
  rfl

/-! Claim theorems. -/

/-- C1: for every store and every sequence of dispatched actions, the state
after the i-th dispatch equals the reducer applied to the previous state and
the i-th action — unless that action is a well-formed `@@RENAME_STORE`
action, in which case the state is unchanged and `getStoreName` returns the
new name instead. -/
theorem c1_dispatch_sequence (r : Reducer S) (st0 : StoreState S)
    (acts : List Action) (i : Nat) (hi : i < acts.length) :
    (wellFormedRename (acts.get ⟨i, hi⟩) = true →
      getState (runDispatches r st0 (acts.take (i + 1)))
        = getState (runDispatches r st0 (acts.take i)) ∧
      getStoreName (runDispatches r st0 (acts.take (i + 1)))
        = ((acts.get ⟨i, hi⟩).name).asString) ∧
    (wellFormedRename (acts.get ⟨i, hi⟩) = false →
      ∀ s', r (getState (runDispatches r st0 (acts.take i))) (acts.get ⟨i, hi⟩)
              = Except.ok s' →
        getState (runDispatches r st0 (acts.take (i + 1))) = s') := by
  rw [runDispatches_take_succ r st0 acts i hi]
  constructor
  · intro h
    rw [dispatch_rename r _ _ h]
    exact ⟨rfl, rfl⟩
  · intro h s' hok
    rw [dispatch_ok r _ _ s' h hok]
    rfl

/-- Witness for C1 at the README scenario: three increments then a rename;
the fourth dispatch (the rename) leaves the state at count 3 and sets the
name to `x`. -/
theorem c1_witness :
    (3 < c1Acts.length) ∧ wellFormedRename (renameAction "x") = true ∧
    (getState (runDispatches counterReducer counterStore0 (c1Acts.take 4))
        = getState (runDispatches counterReducer counterStore0 (c1Acts.take 3)) ∧
      getStoreName (runDispatches counterReducer counterStore0 (c1Acts.take 4)) = "x") :=
  ⟨by decide, by decide,
    (c1_dispatch_sequence counterReducer counterStore0 c1Acts 3 (by decide)).1 (by decide)⟩

/-- C2: `createStore` performs exactly one implicit `@@INIT` dispatch through
the normal dispatch path before returning; when the reducer returns its state
argument unchanged on the (unrecognized) init tag, the returned store holds
exactly the supplied initial state — the state is established by that one
reducer application to the supplied (non-null) value. -/
theorem c2_createStore_init (i0 : S) (r : Reducer S) (nm : String)
    (h : r i0 initAction = Except.ok i0) :
    createStore i0 r nm
      = Except.ok { currentState := i0, storeName := nm, listeners := [] } := by
  have hd : dispatch r { currentState := i0, storeName := nm, listeners := [] } initAction
      = ({ currentState := i0, storeName := nm, listeners := [] }, [], none) :=
    dispatch_ok r _ initAction i0 (by decide) h
  simp [createStore, hd]

/-- Witness for C2: the README counter reducer ignores `@@INIT`, so the store
it creates starts at exactly the supplied initial state. -/
theorem c2_witness :
    counterReducer { count := 0 } initAction = Except.ok { count := 0 } ∧
    createStore { count := 0 : CounterState } counterReducer "default"
      = Except.ok { currentState := { count := 0 }, storeName := "default", listeners := [] } :=
  ⟨rfl, c2_createStore_init { count := 0 } counterReducer "default" rfl⟩

/-- C3: when the reducer throws on (state, action), `dispatch` propagates the
exception synchronously, performs no notification pass, and leaves the store
— in particular `getState` — at its pre-dispatch value. -/
theorem c3_dispatch_fault (r : Reducer S) (st : StoreState S) (a : Action) (e : Err)
    (hnr : wellFormedRename a = false)
    (he : r st.currentState a = Except.error e) :
    dispatch r st a = (st, [], some e) ∧
    getState (dispatch r st a).1 = getState st ∧
    (dispatch r st a).2.2 = some e := by
  have hd := dispatch_error r st a e hnr he
  exact ⟨hd, by rw [hd], by rw [hd]⟩

/-- Witness for C3: a reducer throwing on `BOOM` leaves the count at 5 and
propagates the exception. -/
theorem c3_witness :
    wellFormedRename boomAction = false ∧
    boomReducer { count := 5 } boomAction = Except.error "boom" ∧
    dispatch boomReducer
        { currentState := { count := 5 }, storeName := "default", listeners := [0] } boomAction
      = ({ currentState := { count := 5 }, storeName := "default", listeners := [0] },
          [], some "boom") :=
  ⟨by decide, rfl,
    (c3_dispatch_fault boomReducer
      { currentState := { count := 5 }, storeName := "default", listeners := [0] }
      boomAction "boom" (by decide) rfl).1⟩

/-- C4 counterexample: subscribing the same listener identity (7) twice — as
JavaScript permits, with removal keyed on function identity via `indexOf` —
and invoking one of the returned unsubscribe capabilities once does not
silence the listener: the next dispatch still notifies identity 7 once.
Moreover on the doubly-subscribed store a single dispatch notifies identity 7
twice, not exactly once. -/
theorem c4_counterexample :
    (unsubscribe dupStore 7).2 = true ∧
    ((dispatch counterReducer (unsubscribe dupStore 7).1 incrAction).2.1).count 7 = 1 ∧
    ((dispatch counterReducer dupStore incrAction).2.1).count 7 = 2 := by
  decide

/-- C4 (amended): a dispatch that does not fault performs one synchronous
notification pass invoking exactly the entries of the listener list as it
existed at dispatch time, in registration order (an identity registered n
times is invoked n times); a listener with no remaining registration is not
notified, and unsubscribing a listener registered exactly once removes its
last registration (so it is silenced thereafter). -/
theorem c4_notification_pass (r : Reducer S) (st : StoreState S) (a : Action) (l : Nat)
    (hok : (dispatch r st a).2.2 = none) :
    (dispatch r st a).2.1 = st.listeners ∧
    (l ∉ st.listeners → l ∉ (dispatch r st a).2.1) ∧
    (st.listeners.count l = 1 → l ∉ ((unsubscribe st l).1).listeners) := by
  have hlog : (dispatch r st a).2.1 = st.listeners := by
    cases hwf : wellFormedRename a with
    | true => rw [dispatch_rename r st a hwf]
    | false =>
      cases hred : r st.currentState a with
      | error e =>
        rw [dispatch_error r st a e hwf hred] at hok
        simp at hok
      | ok s' => rw [dispatch_ok r st a s' hwf hred]
  refine ⟨hlog, fun hnm => by rw [hlog]; exact hnm, ?_⟩
  intro hcount
  rw [unsubscribe_fst]
  show l ∉ st.listeners.erase l
  have h1 : (st.listeners.erase l).count l = st.listeners.count l - 1 :=
    List.count_erase_self l st.listeners
  have h0 : (st.listeners.erase l).count l = 0 := by rw [h1, hcount]
  exact List.count_eq_zero.mp h0

/-- Witness for C4 (amended) on a store with one listener (identity 7): the
increment dispatch does not fault, its pass is exactly the registered list,
and unsubscribing the singly-registered listener silences it. -/
theorem c4_witness :
    ((dispatch counterReducer (subscribe counterStore0 7) incrAction).2.2 = none) ∧
    ((dispatch counterReducer (subscribe counterStore0 7) incrAction).2.1
        = (subscribe counterStore0 7).listeners ∧
      (7 ∉ (subscribe counterStore0 7).listeners →
        7 ∉ (dispatch counterReducer (subscribe counterStore0 7) incrAction).2.1) ∧
      ((subscribe counterStore0 7).listeners.count 7 = 1 →
        7 ∉ ((unsubscribe (subscribe counterStore0 7) 7).1).listeners)) :=
  ⟨by decide,
    c4_notification_pass counterReducer (subscribe counterStore0 7) incrAction 7 (by decide)⟩

/-- C5 counterexample: with the same listener identity subscribed twice (as
the API permits), the capability returned by the first `subscribe` returns
`true` on both of its first two invocations — the second invocation removes
the other registration of the same identity instead of returning `false`. -/
theorem c5_counterexample :
    (unsubscribe dupStore 7).2 = true ∧
    (unsubscribe (unsubscribe dupStore 7).1 7).2 = true := by
  decide

/-- C5 (amended): invoking the unsubscribe capability removes the first
remaining registration of the listener identity and returns `true` while one
exists, and returns `false` (never faulting) once none remains; in particular
for a listener registered exactly once the first call returns `true` and the
second `false`. -/
theorem c5_unsubscribe (st : StoreState S) (l : Nat)
    (h : st.listeners.count l = 1) :
    (unsubscribe st l).2 = true ∧
    (unsubscribe (unsubscribe st l).1 l).2 = false ∧
    (∀ st2 : StoreState S, ((unsubscribe st2 l).2 = true ↔ l ∈ st2.listeners)) := by
  have hmem : l ∈ st.listeners := by
    by_contra hn
    have h0 : st.listeners.count l = 0 := List.count_eq_zero.mpr hn
    rw [h0] at h
    exact absurd h (by decide)
  refine ⟨(unsubscribe_snd st l).mpr hmem, ?_, fun st2 => unsubscribe_snd st2 l⟩
  rw [unsubscribe_fst]
  have hnot : l ∉ st.listeners.erase l := by
    have h1 : (st.listeners.erase l).count l = st.listeners.count l - 1 :=
      List.count_erase_self l st.listeners
    have h0 : (st.listeners.erase l).count l = 0 := by rw [h1, h]
    exact List.count_eq_zero.mp h0
  have hiff := unsubscribe_snd { st with listeners := st.listeners.erase l } l
  by_cases hb : (unsubscribe { st with listeners := st.listeners.erase l } l).2 = true
  · exact absurd (hiff.mp hb) hnot
  · simpa using hb

/-- Witness for C5 (amended) on a store whose only listener is identity 7:
the first unsubscribe call returns `true`, the second `false`. -/
theorem c5_witness :
    ((subscribe counterStore0 7).listeners.count 7 = 1) ∧
    ((unsubscribe (subscribe counterStore0 7) 7).2 = true ∧
      (unsubscribe (unsubscribe (subscribe counterStore0 7) 7).1 7).2 = false ∧
      (∀ st2 : StoreState CounterState,
        ((unsubscribe st2 7).2 = true ↔ 7 ∈ st2.listeners))) :=
  ⟨by decide, c5_unsubscribe (subscribe counterStore0 7) 7 (by decide)⟩

/-- C6: `setStoreName` changes only the name — state and listener list are
untouched — and triggers one full notification pass over the listeners;
likewise a dispatch of a well-formed rename action leaves `getState`
unchanged while notifying every listener. -/
theorem c6_rename_frame (st : StoreState S) (n : String) (r : Reducer S) (a : Action)
    (hr : wellFormedRename a = true) :
    getState (setStoreName st n).1 = getState st ∧
    getStoreName (setStoreName st n).1 = n ∧
    ((setStoreName st n).1).listeners = st.listeners ∧
    (setStoreName st n).2 = st.listeners ∧
    getState (dispatch r st a).1 = getState st ∧
    (dispatch r st a).2.1 = st.listeners := by
  rw [dispatch_rename r st a hr]
  exact ⟨rfl, rfl, rfl, rfl, rfl, rfl⟩

/-- Witness for C6 at the counter store: renaming to `updated-store` (either
via `setStoreName` or the rename action) leaves the state untouched. -/
theorem c6_witness :
    wellFormedRename (renameAction "x") = true ∧
    (getState (setStoreName counterStore0 "updated-store").1 = getState counterStore0 ∧
      getStoreName (setStoreName counterStore0 "updated-store").1 = "updated-store" ∧
      ((setStoreName counterStore0 "updated-store").1).listeners = counterStore0.listeners ∧
      (setStoreName counterStore0 "updated-store").2 = counterStore0.listeners ∧
      getState (dispatch counterReducer counterStore0 (renameAction "x")).1
        = getState counterStore0 ∧
      (dispatch counterReducer counterStore0 (renameAction "x")).2.1
        = counterStore0.listeners) :=
  ⟨by decide,
    c6_rename_frame counterStore0 "updated-store" counterReducer (renameAction "x") (by decide)⟩

/-- C7: an action tagged `@@RENAME_STORE` whose `name` field is missing or
not a string does not take the rename special case — it is handed to the
reducer as a normal dispatch — and when the reducer returns the state
unchanged for it, `getState` is unchanged afterwards. -/
theorem c7_malformed_rename (r : Reducer S) (st : StoreState S) (a : Action)
    (h1 : a.type = "@@RENAME_STORE") (h2 : a.name.isString = false) :
    (∀ s', r st.currentState a = Except.ok s' →
        dispatch r st a = ({ st with currentState := s' }, st.listeners, none)) ∧
    (r st.currentState a = Except.ok st.currentState →
        dispatch r st a = (st, st.listeners, none)) := by
  have hwf : wellFormedRename a = false := by
    simp [wellFormedRename, h2]
  exact ⟨fun s' hok => dispatch_ok r st a s' hwf hok,
    fun hok => dispatch_ok r st a st.currentState hwf hok⟩

/-- Witness for C7: `{ type: '@@RENAME_STORE', name: 5 }` falls through to the
counter reducer, which ignores it, leaving state and name unchanged. -/
theorem c7_witness :
    badRenameAction.type = "@@RENAME_STORE" ∧
    badRenameAction.name.isString = false ∧
    counterReducer counterStore0.currentState badRenameAction
      = Except.ok counterStore0.currentState ∧
    dispatch counterReducer counterStore0 badRenameAction
      = (counterStore0, counterStore0.listeners, none) :=
  ⟨rfl, rfl, rfl,
    (c7_malformed_rename counterReducer counterStore0 badRenameAction rfl rfl).2 rfl⟩

/-- C8: with no ambient store in scope (no enclosing Provider, so the context
value is null), the context lookup and each read hook built on it —
`useSelector`, `useDispatch`, `useStore` — fail synchronously with the
configuration error, and the lookup never returns a store. -/
theorem c8_no_provider (sel : S → T) (r : Reducer S) :
    useStoreContext (S := S) none
      = Except.error "useStoreContext must be used within a StoreProvider" ∧
    useSelector (S := S) none sel
      = Except.error "useStoreContext must be used within a StoreProvider" ∧
    useDispatch r none
      = Except.error "useStoreContext must be used within a StoreProvider" ∧
    useStore (S := S) none
      = Except.error "useStoreContext must be used within a StoreProvider" ∧
    (∀ st : StoreState S, useStoreContext none ≠ Except.ok st) :=
  ⟨rfl, rfl, rfl, rfl, fun _ h => Except.noConfusion h⟩

/-- C9: the zustand-style `create` builds its one internal store with the
very same `createStore` from the given initial state, reducer and name, and
the hook it returns computes — for a selector invocation — exactly the
snapshot `useSelector` computes, and — for a zero-argument invocation —
exactly the snapshot `useStore` computes, over that store. -/
theorem c9_create_refines_hooks (i0 : S) (r : Reducer S) (nm : String) :
    create i0 r nm = createStore i0 r nm ∧
    (∀ (store : StoreState S) (sel : S → T),
        Except.ok (createGetSnapshotSel store sel) = useSelector (some store) sel) ∧
    (∀ store : StoreState S,
        Except.ok (createGetSnapshotNone store) = useStore (some store)) :=
  ⟨rfl, fun _ _ => rfl, fun _ => rfl⟩

/-- C10: when the reducer throws on the implicit `@@INIT` action, the
exception propagates synchronously out of `createStore` itself and no store
is returned; the constructor does not catch the init-dispatch fault. -/
theorem c10_init_fault (i0 : S) (r : Reducer S) (nm : String) (e : Err)
    (h : r i0 initAction = Except.error e) :
    createStore i0 r nm = Except.error e := by
  have hd := dispatch_error r
    { currentState := i0, storeName := nm, listeners := [] } initAction e (by decide) h
  simp [createStore, hd]

/-- Witness for C10: a reducer throwing on `@@INIT` makes `createStore`
propagate that very exception. -/
theorem c10_witness :
    initFaultReducer { count := 0 } initAction = Except.error "init failed" ∧
    createStore { count := 0 : CounterState } initFaultReducer "default"
      = Except.error "init failed" :=
  ⟨rfl, c10_init_fault { count := 0 } initFaultReducer "default" "init failed" rfl⟩

end Fluxter
